import Mathlib

/-!
Verification of the Task Execution Core (src/core/taskSystem) against its
natural-language specification.  The Python classes are shallowly embedded as
executable Lean definitions: enums become inductives, mutable objects become
records threaded through functions, Qt signal emissions become event lists,
and the Queue/Tracker/Chain state becomes explicit record-passing.  Python
`int` fields are embedded as `Int` where the source can go negative (unique
index counters, progress arguments) and as `Nat` where the source keeps them
non-negative (retry attempt counters, list indices).
-/

namespace TaskSystem

/-- Embeds `TaskStatus` (src/core/taskSystem/TaskStatus.py). -/
inductive TaskStatus
  | PENDING
  | RUNNING
  | COMPLETED
  | FAILED
  | CANCELLED
  | PAUSED
  | RETRYING
deriving DecidableEq, Repr, BEq

/-- Embeds `UniqueType` (src/core/taskSystem/UniqueType.py). -/
inductive UniqueType
  | NONE
  | JOB
  | UNTIL_PROCESSING
deriving DecidableEq, Repr, BEq

/-- Embeds `ChainRetryBehavior` (src/core/taskSystem/ChainRetryBehavior.py). -/
inductive ChainRetryBehavior
  | STOP_CHAIN
  | SKIP_TASK
  | RETRY_TASK
  | RETRY_CHAIN
deriving DecidableEq, Repr, BEq

/-- Kinds of Python exceptions that can escape a task body (`handle()`):
`TaskFailedException` (raised by `AbstractTask.fail`), `PermanentTaskFailure`
(src/core/taskSystem/Exceptions.py), or any other exception class, carried by
name.  `TaskCancellationException` is modelled separately as a `BodyOutcome`
constructor because `run()` handles it by a dedicated `except` clause. -/
inductive ExcKind
  | taskFailed
  | permanentTaskFailure
  | generic (name : String)
deriving DecidableEq, Repr, BEq

/-- Python `e.__class__.__name__`, used by `run()` to format `self.error`. -/
def ExcKind.excName : ExcKind → String
  | .taskFailed => "TaskFailedException"
  | .permanentTaskFailure => "PermanentTaskFailure"
  | .generic n => n

/-- Heap addresses for mutable Python objects (lists/dicts). -/
abbrev Addr := Nat

/-- Content of a mutable (non-primitive) Python value living on the heap. -/
inductive HVal
  | hlist (xs : List Int)
  | hdict (kvs : List (String × Int))
deriving DecidableEq, Repr, BEq

/-- A Python value as held by a variable or a dict slot: primitives are
immutable and held directly; mutable objects are references into a heap;
`pyObject` stands for a non-JSON-serializable object. -/
inductive PyVal
  | pnone
  | pint (n : Int)
  | pstr (s : String)
  | pbool (b : Bool)
  | mutRef (a : Addr)
  | pyObject
deriving DecidableEq, Repr, BEq

/-- The heap of mutable Python objects. -/
abbrev Heap := List (Addr × HVal)

/-- Association-list lookup (embeds Python `dict.get`). -/
def alistGet {κ β : Type} [DecidableEq κ] (k : κ) : List (κ × β) → Option β
  | [] => none
  | (k2, v) :: rest => if k2 = k then some v else alistGet k rest

/-- Association-list assignment (embeds Python `d[k] = v`: update in place if
present, else append — matching dict insertion order). -/
def alistSet {κ β : Type} [DecidableEq κ] (k : κ) (v : β) : List (κ × β) → List (κ × β)
  | [] => [(k, v)]
  | (k2, v2) :: rest => if k2 = k then (k, v) :: rest else (k2, v2) :: alistSet k v rest

/-- Association-list deletion (embeds Python `del d[k]` / `d.pop(k, None)`). -/
def alistErase {κ β : Type} [DecidableEq κ] (k : κ) : List (κ × β) → List (κ × β)
  | [] => []
  | (k2, v2) :: rest => if k2 = k then rest else (k2, v2) :: alistErase k rest

/-- `json.dumps(value)` succeeds exactly on non-`pyObject` values here: all
heap contents (`HVal`) are lists/dicts of primitives, which are serializable. -/
def PyVal.jsonSerializable : PyVal → Bool
  | .pyObject => false
  | _ => true

/-- What an observer sees when looking at a Python value: a primitive
directly, or the current heap content behind a reference.  Mutating the
referenced object changes the observation without changing the reference. -/
inductive ObsVal
  | prim (v : PyVal)
  | obj (h : Option HVal)
deriving DecidableEq, Repr, BEq

/-- Dereference a value against a heap. -/
def observe (h : Heap) (v : PyVal) : ObsVal :=
  match v with
  | .mutRef a => .obj (alistGet a h)
  | v => .prim v

/-- Embeds the persistent fields of `AbstractTask`
(src/core/taskSystem/AbstractTask.py, `__init__`).  `kind` is the Python
`self.__class__.__name__`; timestamps, tags, the chain context pointer and Qt
plumbing are not needed by any claim and are omitted.  `uniqueKeyOverride`
models subclasses overriding `uniqueVia()` (default: the class name). -/
structure Task where
  uuid : String
  kind : String
  status : TaskStatus := .PENDING
  progress : Int := 0
  result : Option (List (String × PyVal)) := none
  error : Option String := none
  errorException : Option ExcKind := none
  maxRetries : Nat := 0
  retryDelaySeconds : Nat := 5
  currentRetryAttempts : Nat := 0
  failSilently : Bool := true
  stopped : Bool := false
  isPaused : Bool := false
  uniqueType : UniqueType := .NONE
  uniqueKeyOverride : Option String := none
deriving DecidableEq, Repr, BEq

/-- Embeds `AbstractTask.uniqueVia` (default: class name; overridable). -/
def Task.uniqueVia (t : Task) : String := t.uniqueKeyOverride.getD t.kind

/-- Signals a task emits while executing (statusChanged / progressUpdated /
taskFinished in AbstractTask.py). -/
inductive Event
  | statusChanged (s : TaskStatus)
  | progressUpdated (v : Int)
  | taskFinished (err : Option String)
deriving DecidableEq, Repr, BEq

/-- `max(0, min(100, value))`, the clamp in `AbstractTask.setProgress`. -/
def clampProgress (v : Int) : Int := max 0 (min 100 v)

/-- Embeds `AbstractTask.setProgress` (AbstractTask.py lines 174-182). -/
def Task.setProgress (t : Task) (v : Int) : Task :=
  { t with progress := clampProgress v }

/-- How one invocation of a subclass `handle()` body behaves after its
`setProgress` calls: return normally, raise the cancellation sentinel
`TaskCancellationException`, or raise some other exception. -/
inductive BodyOutcome
  | ret
  | raiseCancellation
  | raiseExc (k : ExcKind) (msg : String)
deriving DecidableEq, Repr, BEq

/-- Shallow embedding of one run of a subclass `handle()` body: the sequence
of `setProgress` arguments it passes, whether it called `fail(reason)` and
swallowed the raised sentinel itself (leaving `status = FAILED`), and how it
finishes. -/
structure Body where
  progressCalls : List Int := []
  failCaught : Option String := none
  outcome : BodyOutcome := .ret
deriving DecidableEq, Repr, BEq

/-- Apply a sequence of `setProgress` calls, collecting the emitted
`progressUpdated` events (each carries the already-clamped value). -/
def applyProgressCalls (t : Task) : List Int → Task × List Event
  | [] => (t, [])
  | v :: rest =>
      let t2 := t.setProgress v
      let out := applyProgressCalls t2 rest
      (out.1, .progressUpdated t2.progress :: out.2)

/-- Embeds `AbstractTask.run` (AbstractTask.py lines 381-421).  Returns the
finished task, the emitted event trace, and — when a non-cancellation
exception escaped and `failSilently` is false — the propagated exception
(`run` re-raises after recording the failure; the `finally` block still emits
`taskFinished`). -/
def Task.run (t0 : Task) (body : Body) : Task × List Event × Option (ExcKind × String) :=
  let t1 : Task := { t0 with status := .RUNNING }
  let prog := applyProgressCalls t1 body.progressCalls
  let fc : Task × List Event :=
    match body.failCaught with
    | none => (prog.1, [])
    | some reason =>
        ({ prog.1 with error := some reason, status := .FAILED,
                       errorException := some .taskFailed },
         [Event.statusChanged .FAILED])
  let t3 := fc.1
  let fin : Task × List Event × Option (ExcKind × String) :=
    match body.outcome with
    | .ret =>
        if t3.stopped then
          ({ t3 with status := .CANCELLED, error := some "CANCELLED" },
           [Event.statusChanged .CANCELLED], none)
        else if t3.status = .FAILED then
          (t3, [], none)
        else
          ({ t3 with status := .COMPLETED }, [Event.statusChanged .COMPLETED], none)
    | .raiseCancellation =>
        ({ t3 with error := some "CANCELLED", status := .CANCELLED },
         [Event.statusChanged .CANCELLED], none)
    | .raiseExc k msg =>
        ({ t3 with error := some (k.excName ++ ": " ++ msg), status := .FAILED,
                   errorException := some k },
         [Event.statusChanged .FAILED],
         if t3.failSilently then none else some (k, msg))
  (fin.1,
   Event.statusChanged .RUNNING :: prog.2 ++ fc.2 ++ fin.2.1 ++ [Event.taskFinished fin.1.error],
   fin.2.2)

/-- Embeds `AbstractTask.cancel` (AbstractTask.py lines 249-269): set the
stop flag, wake the pause gate, and transition PENDING/PAUSED directly to
CANCELLED.  `_performCancellationCleanup` of a plain task is a no-op here. -/
def Task.cancel (t : Task) : Task :=
  let t1 : Task := { t with stopped := true, isPaused := false }
  if t1.status = .PENDING ∨ t1.status = .PAUSED then { t1 with status := .CANCELLED } else t1

/-- Embeds `AbstractTask.pause` (sets the pause flag, status PAUSED). -/
def Task.pause (t : Task) : Task :=
  { t with isPaused := true, status := .PAUSED }

/-- Embeds `AbstractTask.resume` (clears the pause flag, status RUNNING). -/
def Task.resume (t : Task) : Task :=
  { t with isPaused := false, status := .RUNNING }

/-- The `progressUpdated` payloads of an event trace, in order. -/
def progressValues : List Event → List Int
  | [] => []
  | .progressUpdated v :: rest => v :: progressValues rest
  | _ :: rest => progressValues rest

/-- Boolean check that a list of progress values never decreases. -/
def nonDecreasingB : List Int → Bool
  | [] => true
  | [_] => true
  | a :: b :: rest => decide (a ≤ b) && nonDecreasingB (b :: rest)

/-! ## ChainContext (src/core/taskSystem/ChainContext.py) -/

/-- Embeds `ChainContext`: `_chainUuid` and the `_data` dict.  The source
stores each value with `self._data[key] = value` — the Python reference is
stored as-is. -/
structure ChainContext where
  chainUuid : String
  data : List (String × PyVal) := []
deriving DecidableEq, Repr, BEq

/-- Embeds `ChainContext.set` (ChainContext.py lines 69-86): validate JSON
serializability (`json.dumps`), then store the value itself (`self._data[key]
= value`).  No copy of any kind is made. -/
def ChainContext.set (ctx : ChainContext) (key : String) (v : PyVal) :
    Except String ChainContext :=
  if v.jsonSerializable then
    .ok { ctx with data := alistSet key v ctx.data }
  else
    .error ("Value for key " ++ key ++ " is not JSON serializable")

/-- Embeds `ChainContext.get` (lines 57-67) with its `default=None`. -/
def ChainContext.get (ctx : ChainContext) (key : String) : PyVal :=
  (alistGet key ctx.data).getD .pnone

/-- The dict returned by `ChainContext.serialize` (lines 88-98): chainUuid
plus `self._data.copy()` — a copy of the top-level dict only; the value
references inside are shared with the stored data. -/
structure ChainContextBlob where
  chainUuid : String
  data : List (String × PyVal)
deriving DecidableEq, Repr, BEq

/-- Embeds `ChainContext.serialize`. -/
def ChainContext.serialize (ctx : ChainContext) : ChainContextBlob :=
  ⟨ctx.chainUuid, ctx.data⟩

/-- Modelled from the spec: "values are stored by deep copy when not
primitive, so external mutation after `set` does not affect stored state"
(spec §4.2).  This variant of `set` is absent from the source; it copies the
current heap content of a mutable value to a fresh address and stores a
reference to the copy.  `fresh` is the allocator-provided new address. -/
def ChainContext.setDeepCopySpec (h : Heap) (fresh : Addr) (ctx : ChainContext)
    (key : String) (v : PyVal) : Except String (ChainContext × Heap) :=
  if v.jsonSerializable then
    match v with
    | .mutRef a =>
        match alistGet a h with
        | some hv =>
            .ok ({ ctx with data := alistSet key (.mutRef fresh) ctx.data },
                 alistSet fresh hv h)
        | none => .ok ({ ctx with data := alistSet key v ctx.data }, h)
    | _ => .ok ({ ctx with data := alistSet key v ctx.data }, h)
  else
    .error ("Value for key " ++ key ++ " is not JSON serializable")

/-! ## TaskQueue (src/core/taskSystem/TaskQueue.py)

The queue state bundles the structures `TaskQueue.__init__` creates plus the
slice of `TaskTracker` the queue claims touch (the set of tracked uuids and
the failed-task log) and the pending `QTimer.singleShot` retry closures.
Storage persistence (`saveState`) and signal emission do not change this
state and are not modelled. -/

structure QueueState where
  pendingTasks : List Task := []
  runningTasks : List (String × Task) := []
  activeUniqueKeys : List (String × (Int × Int)) := []
  maxConcurrentTasks : Nat := 3
  tracker : List String := []
  failureLog : List Task := []
  retryTimers : List (Nat × Task) := []
deriving DecidableEq, Repr, BEq

/-- Embeds `TaskTracker.addTask` restricted to the active-uuid set: a warning
and early return on duplicates, else the task is tracked. -/
def trackerAddTask (tr : List String) (uuid : String) : List String :=
  if uuid ∈ tr then tr else tr ++ [uuid]

/-- Embeds `TaskTracker.removeTask` restricted to the active-uuid set.  The
`TaskNotFoundException` it raises on unknown uuids is caught (try/except) at
every queue call site, so removal of an untracked uuid is a no-op here. -/
def trackerRemoveTask (tr : List String) (uuid : String) : List String :=
  tr.filter (fun u => u ≠ uuid)

namespace TaskQueue

/-- Embeds `TaskQueue._cleanupUniqueKey` (TaskQueue.py lines 320-327). -/
def cleanupUniqueKey (idx : List (String × (Int × Int))) (key : String) :
    List (String × (Int × Int)) :=
  match alistGet key idx with
  | some stats => if stats.1 ≤ 0 ∧ stats.2 ≤ 0 then alistErase key idx else idx
  | none => idx

/-- One iteration of the `TaskQueue._processQueue` loop body (lines 146-174)
after the head `task` has been popped off `pending` (leaving `rest`):
decrement the pending count of the unique key; a task cancelled while
waiting is skipped (removed from the tracker, its unique key cleaned up);
otherwise the running count is incremented and the task moves to the
running map and is submitted to the thread pool. -/
def processQueueStep (qs : QueueState) (task : Task) (rest : List Task) : QueueState :=
  let qs1 : QueueState := { qs with pendingTasks := rest }
  let idx1 :=
    if task.uniqueType ≠ .NONE then
      match alistGet task.uniqueVia qs1.activeUniqueKeys with
      | some stats => alistSet task.uniqueVia (stats.1 - 1, stats.2) qs1.activeUniqueKeys
      | none => qs1.activeUniqueKeys
    else qs1.activeUniqueKeys
  let qs2 : QueueState := { qs1 with activeUniqueKeys := idx1 }
  if task.status = .CANCELLED then
    let qs3 : QueueState := { qs2 with tracker := trackerRemoveTask qs2.tracker task.uuid }
    if task.uniqueType ≠ .NONE then
      { qs3 with activeUniqueKeys := cleanupUniqueKey qs3.activeUniqueKeys task.uniqueVia }
    else qs3
  else
    let idx2 :=
      if task.uniqueType ≠ .NONE then
        match alistGet task.uniqueVia qs2.activeUniqueKeys with
        | some stats => alistSet task.uniqueVia (stats.1, stats.2 + 1) qs2.activeUniqueKeys
        | none => qs2.activeUniqueKeys
      else qs2.activeUniqueKeys
    { qs2 with activeUniqueKeys := idx2,
               runningTasks := qs2.runningTasks ++ [(task.uuid, task)] }

/-- The `while` loop of `TaskQueue._processQueue` (lines 137-174), with fuel
equal to the number of loop iterations still possible (each iteration pops
one pending task, so the initial pending length is enough fuel). -/
def processQueueGo : Nat → QueueState → QueueState
  | 0, qs => qs
  | fuel + 1, qs =>
    if qs.runningTasks.length < qs.maxConcurrentTasks then
      match qs.pendingTasks with
      | [] => qs
      | task :: rest => processQueueGo fuel (processQueueStep qs task rest)
    else qs

/-- Embeds `TaskQueue._processQueue`. -/
def processQueue (qs : QueueState) : QueueState :=
  processQueueGo qs.pendingTasks.length qs

/-- Embeds `TaskQueue.addTask` (lines 88-118): check the uniqueness
constraints against `_activeUniqueKeys` (a `UniqueType.JOB` duplicate key
with pending or running entries, or an `UNTIL_PROCESSING` duplicate with a
pending entry, is ignored — the submission is a no-op), else count the key
as pending, append to `_pendingTasks`, register with the tracker and process
the queue. -/
def addTask (qs : QueueState) (task : Task) : QueueState :=
  if task.uniqueType ≠ .NONE then
    let key := task.uniqueVia
    let stats := (alistGet key qs.activeUniqueKeys).getD (0, 0)
    if task.uniqueType = .JOB ∧ (stats.1 > 0 ∨ stats.2 > 0) then qs
    else if task.uniqueType = .UNTIL_PROCESSING ∧ stats.1 > 0 then qs
    else
      processQueue
        { qs with activeUniqueKeys := alistSet key (stats.1 + 1, stats.2) qs.activeUniqueKeys,
                  pendingTasks := qs.pendingTasks ++ [task],
                  tracker := trackerAddTask qs.tracker task.uuid }
  else
    processQueue
      { qs with pendingTasks := qs.pendingTasks ++ [task],
                tracker := trackerAddTask qs.tracker task.uuid }

/-- Embeds `TaskQueue._handleTaskCompletion` (lines 176-227).  `task` is the
signal argument (the finished task instance); the handler returns unchanged
if the uuid is not among the running tasks, else removes it from running,
updates the unique index, and either schedules a retry (Failed, not stopped,
attempts remaining: increment `currentRetryAttempts`, set status RETRYING,
log the failure, register a `retryDelaySeconds`-second timer) or logs a
final failure and removes the task from the tracker. -/
def handleTaskCompletion (qs : QueueState) (uuid : String) (task : Task) : QueueState :=
  if (alistGet uuid qs.runningTasks).isNone then qs
  else
    let qs1 : QueueState := { qs with runningTasks := alistErase uuid qs.runningTasks }
    let qs2 : QueueState :=
      if task.uniqueType ≠ .NONE then
        let key := task.uniqueVia
        let idx1 :=
          match alistGet key qs1.activeUniqueKeys with
          | some stats => alistSet key (stats.1, stats.2 - 1) qs1.activeUniqueKeys
          | none => qs1.activeUniqueKeys
        { qs1 with activeUniqueKeys := cleanupUniqueKey idx1 key }
      else qs1
    let qs3 : QueueState :=
      if task.status = .FAILED ∧ task.stopped = false ∧
          task.currentRetryAttempts < task.maxRetries then
        let retrying : Task :=
          { task with currentRetryAttempts := task.currentRetryAttempts + 1,
                      status := .RETRYING }
        { qs2 with failureLog := qs2.failureLog ++ [retrying],
                   retryTimers := qs2.retryTimers ++ [(task.retryDelaySeconds, retrying)] }
      else
        let qs2b : QueueState :=
          if task.status = .FAILED then { qs2 with failureLog := qs2.failureLog ++ [task] }
          else qs2
        { qs2b with tracker := trackerRemoveTask qs2b.tracker uuid }
    processQueue qs3

/-- The reset `_retryTask` applies before re-enqueueing: status PENDING,
error and exception cleared, stop flag cleared (TaskQueue.py lines 245-250). -/
def resetForRetry (t : Task) : Task :=
  { t with status := .PENDING, error := none, errorException := none, stopped := false }

/-- Embeds `TaskQueue._retryTask` (lines 229-254), the retry-timer callback:
if the task was cancelled while waiting, drop it and remove it from the
tracker; otherwise reset it and re-append it directly to `_pendingTasks`
(the task stays tracked — no second tracker registration), then process the
queue.  Note: the unique-key index is not touched on this path. -/
def retryTask (qs : QueueState) (task : Task) : QueueState :=
  if task.stopped = true ∨ task.status = .CANCELLED then
    { qs with tracker := trackerRemoveTask qs.tracker task.uuid }
  else
    processQueue { qs with pendingTasks := qs.pendingTasks ++ [resetForRetry task] }

end TaskQueue

/-- Number of tasks with uniqueness type JOB and the given unique key that
sit in `pending ∪ running` of a queue state. -/
def jobKeyCount (key : String) (qs : QueueState) : Nat :=
  ((qs.pendingTasks ++ qs.runningTasks.map Prod.snd).filter
    (fun t => t.uniqueType = .JOB ∧ t.uniqueVia = key)).length

/-! ## TaskManagerService (src/core/taskSystem/TaskManagerService.py)

`pauseTask`/`resumeTask` operate on the tracker's `_activeTasks` map.  An
operation either returns normally (`.ok` with the possibly-updated map) or
raises (`.error`); `InvalidTaskStateException` exists in Exceptions.py, so
the error type carries it, letting the statements say which errors the
service can actually surface. -/

/-- The typed exceptions of src/core/taskSystem/Exceptions.py that the
manager could surface to a caller. -/
inductive TaskSystemError
  | notFound (uuid : String)
  | invalidState (uuid : String) (currentState : TaskStatus) (operation : String)
deriving DecidableEq, Repr, BEq

namespace TaskManagerService

/-- Embeds `TaskManagerService.pauseTask` (lines 225-244): unknown uuid
raises `TaskNotFoundException`; a task whose status is not RUNNING logs a
warning and returns (no exception, no state change); otherwise the task is
paused. -/
def pauseTask (activeTasks : List (String × Task)) (uuid : String) :
    Except TaskSystemError (List (String × Task)) :=
  match alistGet uuid activeTasks with
  | none => .error (.notFound uuid)
  | some task =>
      if task.status ≠ .RUNNING then .ok activeTasks
      else .ok (alistSet uuid task.pause activeTasks)

/-- Embeds `TaskManagerService.resumeTask` (lines 246-264): unknown uuid
raises `TaskNotFoundException`; a task whose status is not PAUSED logs a
warning and returns (no exception, no state change); otherwise the task is
resumed. -/
def resumeTask (activeTasks : List (String × Task)) (uuid : String) :
    Except TaskSystemError (List (String × Task)) :=
  match alistGet uuid activeTasks with
  | none => .error (.notFound uuid)
  | some task =>
      if task.status ≠ .PAUSED then .ok activeTasks
      else .ok (alistSet uuid task.resume activeTasks)

end TaskManagerService

/-! ## TaskChain (src/core/taskSystem/TaskChain.py)

A chain is itself a task (`base`) plus the chain-specific state of
`TaskChain.__init__`.  A child carries its `Task` record and the shallow
embedding of its `handle()` body, one `Body` per run attempt (attempts
beyond the supplied list behave like an empty body that returns normally). -/

/-- A child task of a chain together with its per-attempt bodies. -/
structure ChainChild where
  task : Task
  bodies : List Body := []
deriving DecidableEq, Repr, BEq

/-- Embeds one entry of `TaskChain._taskStates`. -/
structure ChildState where
  status : TaskStatus := .PENDING
  result : Option (List (String × PyVal)) := none
  error : String := ""
deriving DecidableEq, Repr, BEq

/-- Embeds the `TaskChain` state. -/
structure TaskChain where
  base : Task
  tasks : List ChainChild := []
  currentTaskIndex : Nat := 0
  chainContext : ChainContext
  taskStates : List (String × ChildState) := []
  retryBehaviorMap : List (String × ChainRetryBehavior) := []
  chainRetryAttempts : Nat := 0
  progressUpdatedExternally : Bool := false
deriving DecidableEq, Repr, BEq

namespace TaskChain

/-- Embeds `TaskChain._updateDefaultProgress` (TaskChain.py lines 96-105):
100 for an empty chain, else `int((currentTaskIndex + 1) / len * 100)`.
The source computes via Python float division; for the in-range operands
used here this equals exact integer division. -/
def updateDefaultProgress (c : TaskChain) : TaskChain :=
  if c.tasks.length = 0 then
    { c with base := c.base.setProgress 100 }
  else
    let p : Int := ((c.currentTaskIndex + 1) * 100 / c.tasks.length : Nat)
    { c with base := c.base.setProgress p }

/-- Embeds `TaskChain._performCancellationCleanup` (lines 309-324): call
`cancel()` on every child task, at every position. -/
def performCancellationCleanup (c : TaskChain) : TaskChain :=
  { c with tasks := c.tasks.map (fun ch => { ch with task := ch.task.cancel }) }

/-- Embeds `TaskChain.cancel` (lines 107-116): unsubscribe from the progress
event (event bus not modelled), run the cancellation cleanup, then
`super().cancel()` — which sets the stop flag, wakes the pause gate, moves a
PENDING/PAUSED chain to CANCELLED, and (by dynamic dispatch) runs the
chain's cleanup a second time. -/
def cancel (c : TaskChain) : TaskChain :=
  let c1 := performCancellationCleanup c
  let b1 : Task := { c1.base with stopped := true, isPaused := false }
  let b2 : Task :=
    if b1.status = .PENDING ∨ b1.status = .PAUSED then { b1 with status := .CANCELLED } else b1
  performCancellationCleanup { c1 with base := b2 }

/-- Result of `_executeSubTaskWithRetry`: the updated chain and child, the
boolean the source returns, and — when an exception escaped the method (the
`task.fail(str(e))` call inside its `except Exception` handler re-raises) —
that exception. -/
structure SubRunOut where
  chain : TaskChain
  child : Task
  ok : Bool
  raised : Option (ExcKind × String) := none
deriving DecidableEq, Repr, BEq

/-- Update a child's `_taskStates` entry with status and error (the
`attempts += 1` tail of the retry loop). -/
def recordChildFailure (c : TaskChain) (child : Task) : TaskChain :=
  let prev := (alistGet child.uuid c.taskStates).getD {}
  let st : ChildState :=
    { prev with status := child.status, error := child.error.getD "Unknown error" }
  { c with taskStates := alistSet child.uuid st c.taskStates }

/-- Embeds the loop of `TaskChain._executeSubTaskWithRetry` (lines 178-219).
`remaining` is `maxAttempts - attempts` (the source loops while
`attempts < maxAttempts` with `maxAttempts = task.maxRetries + 1`);
`isRetry` is `attempts > 0` (those attempts set the chain to RETRYING, sleep
`task.retryDelaySeconds`, then return it to RUNNING); `bodies` holds the
body of the current and subsequent attempts.  A child run that propagates a
`TaskFailedException` is caught and counted as a failed attempt; any other
propagated exception reaches the `except Exception` handler whose
`task.fail(str(e))` raises a `TaskFailedException` that escapes the method. -/
def execSubGo : Nat → Bool → TaskChain → Task → List Body → SubRunOut
  | 0, _, c, child, _ => ⟨c, child, false, none⟩
  | remaining + 1, isRetry, c, child, bodies =>
      if c.base.stopped then ⟨c, child, false, none⟩
      else
        let c1 : TaskChain :=
          if isRetry then { c with base := { c.base with status := .RUNNING } } else c
        if c1.base.stopped then ⟨c1, child, false, none⟩
        else
          let child1 : Task := { child with status := .PENDING }
          let body := bodies.headD {}
          let runOut := child1.run body
          let child2 := runOut.1
          match runOut.2.2 with
          | some (.taskFailed, _) =>
              let c2 := recordChildFailure c1 child2
              execSubGo remaining true c2 child2 bodies.tail
          | some (_, m) =>
              let child3 : Task :=
                { child2 with error := some m, status := .FAILED,
                              errorException := some .taskFailed }
              ⟨c1, child3, false, some (.taskFailed, m)⟩
          | none =>
              if child2.status = .COMPLETED then
                let prev := (alistGet child2.uuid c1.taskStates).getD {}
                let st : ChildState :=
                  { prev with status := child2.status, result := child2.result }
                let c2 : TaskChain :=
                  { c1 with taskStates := alistSet child2.uuid st c1.taskStates }
                ⟨c2, child2, true, none⟩
              else if child2.status = .CANCELLED ∨ c1.base.stopped then
                ⟨c1, child2, false, none⟩
              else
                let c2 := recordChildFailure c1 child2
                execSubGo remaining true c2 child2 bodies.tail

/-- Embeds `TaskChain._executeSubTaskWithRetry` entry point. -/
def executeSubTaskWithRetry (c : TaskChain) (child : ChainChild) : SubRunOut :=
  execSubGo (child.task.maxRetries + 1) false c child.task child.bodies

/-- Result of one full `TaskChain.handle()` call: the final chain state, an
escaped exception if any (`self.fail(...)` raises `TaskFailedException`),
and a marker `finalized` that is true exactly on the loop-exit path
(`currentTaskIndex ≥ len(tasks)`) where the source sets
`self.result = self._chainContext.serialize()["data"]`. -/
structure HandleOut where
  chain : TaskChain
  raised : Option (ExcKind × String) := none
  finalized : Bool := false
deriving DecidableEq, Repr, BEq

/-- The shared tail of a loop iteration that neither stopped, failed the
chain, nor used SKIP_TASK or RETRY_CHAIN: default progress update (unless an
external update latched) and advancing `currentTaskIndex` (lines 170-172). -/
def advanceStep (c : TaskChain) : TaskChain :=
  let c1 := if c.progressUpdatedExternally = false then updateDefaultProgress c else c
  { c1 with currentTaskIndex := c1.currentTaskIndex + 1 }

/-- Embeds the `while` loop of `TaskChain.handle` (lines 132-176), fuelled;
`none` means the fuel ran out before the loop finished.  The
`ChainRetryBehavior.RETRY_TASK` case mirrors the source exactly: the
`if/elif` ladder has no branch for it, so control falls through to the
progress update and index increment shared with the success path. -/
def handleGo : Nat → TaskChain → Option HandleOut
  | 0, _ => none
  | fuel + 1, c =>
      if h : c.currentTaskIndex < c.tasks.length then
        if c.base.stopped then
          some ⟨{ c with base := { c.base with status := .CANCELLED } }, none, false⟩
        else
          let c1 : TaskChain := { c with progressUpdatedExternally := false }
          let child := c1.tasks.get ⟨c1.currentTaskIndex, h⟩
          let out := executeSubTaskWithRetry c1 child
          match out.raised with
          | some em => some ⟨out.chain, some em, false⟩
          | none =>
            let c2 := out.chain
            if c2.base.stopped = true ∨ out.child.status = .CANCELLED then
              let b2 : Task :=
                if c2.base.status ≠ .FAILED then { c2.base with status := .CANCELLED }
                else c2.base
              some ⟨{ c2 with base := b2 }, none, false⟩
            else if out.ok = false then
              match (alistGet child.task.kind c2.retryBehaviorMap).getD .STOP_CHAIN with
              | .STOP_CHAIN =>
                  let msg := "Sub-task failed and chain is configured to stop."
                  some ⟨{ c2 with base :=
                            { c2.base with error := some msg, status := .FAILED,
                                           errorException := some .taskFailed } },
                        some (.taskFailed, msg), false⟩
              | .SKIP_TASK =>
                  handleGo fuel { c2 with currentTaskIndex := c2.currentTaskIndex + 1 }
              | .RETRY_CHAIN =>
                  if c2.chainRetryAttempts < c2.base.maxRetries then
                    let states2 := c2.taskStates.map
                      (fun e => (e.1, { e.2 with status := TaskStatus.PENDING, error := "" }))
                    handleGo fuel
                      { c2 with chainRetryAttempts := c2.chainRetryAttempts + 1,
                                currentTaskIndex := 0, taskStates := states2 }
                  else
                    let msg := "Chain failed after retry attempts."
                    some ⟨{ c2 with base :=
                              { c2.base with error := some msg, status := .FAILED,
                                             errorException := some .taskFailed } },
                          some (.taskFailed, msg), false⟩
              | .RETRY_TASK =>
                  handleGo fuel (advanceStep c2)
            else
              handleGo fuel (advanceStep c2)
      else
        some ⟨{ c with base :=
                  { c.base with result := some (c.chainContext.serialize).data } },
              none, true⟩

/-- Embeds `TaskChain.handle` (lines 118-176): the empty-children early
return (`self._updateDefaultProgress(); return` — the result field is left
untouched) followed by the fuelled loop. -/
def handle (c : TaskChain) (fuel : Nat) : Option HandleOut :=
  if c.tasks.isEmpty then some ⟨updateDefaultProgress c, none, false⟩
  else handleGo fuel c

end TaskChain

/-! ## Concrete instances used by the individual claims -/

/-- C1 scenario: a `UniqueType.JOB` task with key `K` and one retry. -/
def jobTaskA : Task :=
  { uuid := "a", kind := "JobTask", maxRetries := 1, uniqueType := .JOB,
    uniqueKeyOverride := some "K" }

/-- C1 scenario: a second `JOB` task with the same key `K`. -/
def jobTaskB : Task :=
  { uuid := "b", kind := "JobTask", uniqueType := .JOB, uniqueKeyOverride := some "K" }

/-- C1 scenario: a fresh queue with one worker slot. -/
def qsEmpty1 : QueueState := { maxConcurrentTasks := 1 }

/-- C1 step 1: admit task `a`; it is dispatched to the single slot. -/
def qsStep1 : QueueState := TaskQueue.addTask qsEmpty1 jobTaskA

/-- C1 scenario: task `a` as its run leaves it — Failed, not stopped. -/
def jobTaskAFailed : Task := { jobTaskA with status := .FAILED, error := some "boom" }

/-- C1 step 2: the completion handler observes the failure and schedules a
retry of task `a`. -/
def qsStep2 : QueueState := TaskQueue.handleTaskCompletion qsStep1 "a" jobTaskAFailed

/-- The retrying snapshot of task `a` captured by the retry timer. -/
def jobTaskARetrying : Task :=
  { jobTaskAFailed with currentRetryAttempts := 1, status := .RETRYING }

/-- C1 step 3: while `a` awaits its retry, task `b` (same JOB key) is
submitted. -/
def qsStep3 : QueueState := TaskQueue.addTask qsStep2 jobTaskB

/-- C1 step 4: the retry timer fires and re-enqueues task `a`. -/
def qsStep4 : QueueState := TaskQueue.retryTask qsStep3 jobTaskARetrying

/-- C3 scenario: a task with one retry whose body raises
`PermanentTaskFailure`. -/
def permTask0 : Task := { uuid := "p", kind := "ClaimTask", maxRetries := 1 }

/-- C3 scenario: the body declaring the non-retryable failure. -/
def permBody : Body := { outcome := .raiseExc .permanentTaskFailure "IP already claimed" }

/-- C3 scenario: the task after `run()` — Failed, carrying the
`PermanentTaskFailure` exception. -/
def permTask1 : Task := (permTask0.run permBody).1

/-- C3 scenario: the queue observing the permanently-failed task as running. -/
def qsPerm : QueueState :=
  { maxConcurrentTasks := 1, runningTasks := [("p", permTask1)], tracker := ["p"] }

/-- C3 scenario: the queue after the completion handler runs. -/
def qsPerm2 : QueueState := TaskQueue.handleTaskCompletion qsPerm "p" permTask1

/-- C4 counterexample task: already stopped (cancel() was called) and
running. -/
def stoppedTask : Task := { uuid := "c4", kind := "T", stopped := true, status := .RUNNING }

/-- C5 counterexample task: fresh task with default progress 0. -/
def freshTask : Task := { uuid := "c5", kind := "T" }

/-- C6 scenario: a child that always fails (its body raises a generic
exception; `failSilently` defaults to true, so `run()` swallows it and
leaves the child Failed). -/
def flakyChild : Task := { uuid := "f", kind := "FlakyStep" }

/-- C6 scenario: the failing body of the flaky child. -/
def flakyBody : Body := { outcome := .raiseExc (.generic "ValueError") "boom" }

/-- C6 scenario: a running one-child chain that maps the child kind to
`RETRY_TASK`. -/
def chainWithRetryTask : TaskChain :=
  { base := { uuid := "cr", kind := "TaskChain", status := .RUNNING },
    tasks := [{ task := flakyChild, bodies := [flakyBody] }],
    chainContext := { chainUuid := "cr" },
    taskStates := [("f", {})],
    retryBehaviorMap := [("FlakyStep", .RETRY_TASK)] }

/-- C6 scenario: the identical chain with the child kind mapped to
`STOP_CHAIN` instead. -/
def chainWithStopChain : TaskChain :=
  { chainWithRetryTask with retryBehaviorMap := [("FlakyStep", .STOP_CHAIN)] }

/-- C6 expected outcome under `RETRY_TASK`: the chain advances past the
failed child (index 1), finalizes with progress 100 and result = context
data, and no exception escapes. -/
def c6RetryOut : TaskChain.HandleOut :=
  ⟨{ chainWithRetryTask with
      base := { chainWithRetryTask.base with progress := 100, result := some [] },
      currentTaskIndex := 1,
      taskStates := [("f", { status := .FAILED, error := "ValueError: boom" })] },
    none, true⟩

/-- C6 expected outcome under `STOP_CHAIN`: `fail()` marks the chain Failed
and its `TaskFailedException` escapes `handle()`. -/
def c6StopOut : TaskChain.HandleOut :=
  ⟨{ chainWithStopChain with
      base := { chainWithStopChain.base with
                  status := .FAILED,
                  error := some "Sub-task failed and chain is configured to stop.",
                  errorException := some .taskFailed },
      taskStates := [("f", { status := .FAILED, error := "ValueError: boom" })] },
    some (.taskFailed, "Sub-task failed and chain is configured to stop."), false⟩

/-- C7 scenario: a heap holding one mutable list `[1]` at address 0. -/
def heap0 : Heap := [(0, .hlist [1])]

/-- C7 scenario: the same heap after the caller mutates the list to
`[1, 2]` (external mutation after `set`). -/
def heap1 : Heap := alistSet 0 (HVal.hlist [1, 2]) heap0

/-- C7 scenario: an empty chain context. -/
def ctxEmpty : ChainContext := { chainUuid := "chain1" }

/-- C7 scenario: the context the source `set` produces — it stores the
reference to address 0 itself. -/
def ctxStored : ChainContext := { chainUuid := "chain1", data := [("k", .mutRef 0)] }

/-- C8 scenario: one tracked task in status PENDING (neither Running nor
Paused). -/
def pendingMap : List (String × Task) := [("x", { uuid := "x", kind := "T" })]

/-- C9 counterexample: a chain constructed with an empty child list. -/
def emptyChain : TaskChain :=
  { base := { uuid := "ch", kind := "TaskChain" }, chainContext := { chainUuid := "ch" } }

/-- C9 witness: a one-child chain whose child succeeds. -/
def chainOneOk : TaskChain :=
  { base := { uuid := "cw", kind := "TaskChain", status := .RUNNING },
    tasks := [{ task := { uuid := "ok1", kind := "OkStep" }, bodies := [{}] }],
    chainContext := { chainUuid := "cw" },
    taskStates := [("ok1", {})] }

/-- C9 witness: the outcome of running the loop on `chainOneOk`. -/
def chainOneOkOut : TaskChain.HandleOut :=
  (TaskChain.handleGo 3 chainOneOk).getD ⟨chainOneOk, none, false⟩

/-- C10 witness: the second child of `chainTwoKids` as `TaskChain.cancel`
leaves it (cancel is applied once by the direct cleanup call and once more
through `super().cancel()`). -/
def cancelledKid1 : ChainChild :=
  { task := Task.cancel (Task.cancel { uuid := "k1", kind := "S1" }), bodies := [] }

/-- C10 witness: a two-child chain, first child already finished. -/
def chainTwoKids : TaskChain :=
  { base := { uuid := "cc", kind := "TaskChain", status := .RUNNING },
    tasks := [{ task := { uuid := "k0", kind := "S0", status := .COMPLETED } },
              { task := { uuid := "k1", kind := "S1" } }],
    chainContext := { chainUuid := "cc" } }

/-- C2 witness: a queue with one running task `w` that just failed with
retries remaining. -/
def wTask : Task := { uuid := "w", kind := "W", status := .FAILED, maxRetries := 2 }

/-- C2 witness: the queue state in which `w` finishes. -/
def qsW : QueueState :=
  { maxConcurrentTasks := 1, runningTasks := [("w", wTask)], tracker := ["w"] }

/-! ## Supporting lemmas -/

theorem alistGet_alistSet_self {κ β : Type} [DecidableEq κ] (k : κ) (v : β) :
    ∀ l : List (κ × β), alistGet k (alistSet k v l) = some v := by
  intro l
  induction l with
  | nil => simp [alistGet, alistSet]
  | cons hd tl ih =>
      by_cases h : hd.1 = k
      · simp [alistSet, alistGet, h]
      · simp [alistSet, alistGet, h, ih]

theorem progressValues_append (a b : List Event) :
    progressValues (a ++ b) = progressValues a ++ progressValues b := by
  induction a with
  | nil => rfl
  | cons e rest ih => cases e <;> simp [progressValues, ih]

theorem applyProgressCalls_fst (calls : List Int) : ∀ t : Task,
    (applyProgressCalls t calls).1 =
      { t with progress := (calls.map clampProgress).getLastD t.progress } := by
  induction calls with
  | nil => intro t; rfl
  | cons v rest ih =>
      intro t
      show (applyProgressCalls (t.setProgress v) rest).1 = _
      rw [ih, List.map_cons, List.getLastD_cons]
      rfl

theorem applyProgressCalls_stopped (calls : List Int) : ∀ t : Task,
    (applyProgressCalls t calls).1.stopped = t.stopped := by
  induction calls with
  | nil => intro t; rfl
  | cons v rest ih =>
      intro t
      show (applyProgressCalls (t.setProgress v) rest).1.stopped = t.stopped
      rw [ih]
      rfl

theorem applyProgressCalls_status (calls : List Int) : ∀ t : Task,
    (applyProgressCalls t calls).1.status = t.status := by
  induction calls with
  | nil => intro t; rfl
  | cons v rest ih =>
      intro t
      show (applyProgressCalls (t.setProgress v) rest).1.status = t.status
      rw [ih]
      rfl

theorem applyProgressCalls_progress (calls : List Int) : ∀ t : Task,
    (applyProgressCalls t calls).1.progress
      = (calls.map clampProgress).getLastD t.progress := by
  induction calls with
  | nil => intro t; rfl
  | cons v rest ih =>
      intro t
      show (applyProgressCalls (t.setProgress v) rest).1.progress = _
      rw [ih, List.map_cons, List.getLastD_cons]
      rfl

theorem applyProgressCalls_events (calls : List Int) : ∀ t : Task,
    progressValues (applyProgressCalls t calls).2 = calls.map clampProgress := by
  induction calls with
  | nil => intro t; rfl
  | cons v rest ih =>
      intro t
      show progressValues (.progressUpdated (t.setProgress v).progress ::
        (applyProgressCalls (t.setProgress v) rest).2) = _
      simp [progressValues, ih, Task.setProgress]

theorem run_ret_progressValues (t : Task) (calls : List Int) :
    progressValues (Task.run t ⟨calls, none, .ret⟩).2.1 = calls.map clampProgress := by
  have hev := applyProgressCalls_events calls { t with status := TaskStatus.RUNNING }
  simp [Task.run, progressValues_append, progressValues, hev]
  split
  · simp [progressValues]
  · split <;> simp [progressValues]

theorem trackerRemoveTask_sub (tr : List String) (uuid x : String)
    (h : x ∈ trackerRemoveTask tr uuid) : x ∈ tr :=
  (List.mem_filter.1 h).1

theorem trackerRemoveTask_mem (tr : List String) (uuid x : String)
    (h : x ∈ tr) (hne : x ≠ uuid) : x ∈ trackerRemoveTask tr uuid := by
  exact List.mem_filter.2 ⟨h, by simp [hne]⟩

namespace TaskQueue

theorem processQueueStep_pendingTasks (qs : QueueState) (task : Task) (rest : List Task) :
    (processQueueStep qs task rest).pendingTasks = rest := by
  by_cases hc : task.status = .CANCELLED <;>
    by_cases hu : task.uniqueType = .NONE <;>
      simp [processQueueStep, hc, hu]

theorem processQueueStep_retryTimers (qs : QueueState) (task : Task) (rest : List Task) :
    (processQueueStep qs task rest).retryTimers = qs.retryTimers := by
  by_cases hc : task.status = .CANCELLED <;>
    by_cases hu : task.uniqueType = .NONE <;>
      simp [processQueueStep, hc, hu]

theorem processQueueStep_running_notCancelled (qs : QueueState) (task : Task)
    (rest : List Task) (hc : task.status ≠ .CANCELLED) :
    (processQueueStep qs task rest).runningTasks = qs.runningTasks ++ [(task.uuid, task)] := by
  by_cases hu : task.uniqueType = .NONE <;> simp [processQueueStep, hc, hu]

theorem processQueueStep_running_cancelled (qs : QueueState) (task : Task)
    (rest : List Task) (hc : task.status = .CANCELLED) :
    (processQueueStep qs task rest).runningTasks = qs.runningTasks := by
  by_cases hu : task.uniqueType = .NONE <;> simp [processQueueStep, hc, hu]

theorem processQueueStep_tracker_notCancelled (qs : QueueState) (task : Task)
    (rest : List Task) (hc : task.status ≠ .CANCELLED) :
    (processQueueStep qs task rest).tracker = qs.tracker := by
  by_cases hu : task.uniqueType = .NONE <;> simp [processQueueStep, hc, hu]

theorem processQueueStep_tracker_cancelled (qs : QueueState) (task : Task)
    (rest : List Task) (hc : task.status = .CANCELLED) :
    (processQueueStep qs task rest).tracker = trackerRemoveTask qs.tracker task.uuid := by
  by_cases hu : task.uniqueType = .NONE <;> simp [processQueueStep, hc, hu]

theorem processQueueStep_tracker_sub (qs : QueueState) (task : Task) (rest : List Task)
    (x : String) (h : x ∈ (processQueueStep qs task rest).tracker) : x ∈ qs.tracker := by
  by_cases hc : task.status = .CANCELLED
  · rw [processQueueStep_tracker_cancelled qs task rest hc] at h
    exact trackerRemoveTask_sub _ _ _ h
  · rwa [processQueueStep_tracker_notCancelled qs task rest hc] at h

theorem processQueueStep_tracker_mem (qs : QueueState) (task : Task) (rest : List Task)
    (x : String) (h : x ∈ qs.tracker) (hne : task.uuid ≠ x) :
    x ∈ (processQueueStep qs task rest).tracker := by
  by_cases hc : task.status = .CANCELLED
  · rw [processQueueStep_tracker_cancelled qs task rest hc]
    exact trackerRemoveTask_mem _ _ _ h (Ne.symm hne)
  · rwa [processQueueStep_tracker_notCancelled qs task rest hc]

theorem processQueueGo_succ (fuel : Nat) (qs : QueueState) :
    processQueueGo (fuel + 1) qs =
      if qs.runningTasks.length < qs.maxConcurrentTasks then
        match qs.pendingTasks with
        | [] => qs
        | task :: rest => processQueueGo fuel (processQueueStep qs task rest)
      else qs := rfl

theorem processQueueGo_retryTimers : ∀ (fuel : Nat) (qs : QueueState),
    (processQueueGo fuel qs).retryTimers = qs.retryTimers := by
  intro fuel
  induction fuel with
  | zero => intro qs; rfl
  | succ fuel ih =>
      intro qs
      rw [processQueueGo_succ]
      split
      · rcases hp : qs.pendingTasks with _ | ⟨task, rest⟩
        · rfl
        · show (processQueueGo fuel (processQueueStep qs task rest)).retryTimers = _
          rw [ih, processQueueStep_retryTimers]
      · rfl

theorem processQueueGo_tracker_sub : ∀ (fuel : Nat) (qs : QueueState) (x : String),
    x ∈ (processQueueGo fuel qs).tracker → x ∈ qs.tracker := by
  intro fuel
  induction fuel with
  | zero => intro qs x h; exact h
  | succ fuel ih =>
      intro qs x h
      rw [processQueueGo_succ] at h
      split at h
      · rcases hp : qs.pendingTasks with _ | ⟨task, rest⟩ <;> rw [hp] at h
        · exact h
        · exact processQueueStep_tracker_sub _ _ _ _ (ih _ _ h)
      · exact h

theorem processQueueGo_tracker_mem : ∀ (fuel : Nat) (qs : QueueState) (x : String),
    x ∈ qs.tracker → (∀ p ∈ qs.pendingTasks, p.uuid ≠ x) →
    x ∈ (processQueueGo fuel qs).tracker := by
  intro fuel
  induction fuel with
  | zero => intro qs x h _; exact h
  | succ fuel ih =>
      intro qs x h hpend
      rw [processQueueGo_succ]
      split
      · rcases hp : qs.pendingTasks with _ | ⟨task, rest⟩
        · exact h
        · show x ∈ (processQueueGo fuel (processQueueStep qs task rest)).tracker
          apply ih
          · exact processQueueStep_tracker_mem _ _ _ _ h
              (hpend task (by rw [hp]; exact List.mem_cons_self _ _))
          · intro p hpmem
            rw [processQueueStep_pendingTasks] at hpmem
            exact hpend p (by rw [hp]; exact List.mem_cons_of_mem _ hpmem)
      · exact h

theorem processQueueGo_running_mono : ∀ (fuel : Nat) (qs : QueueState)
    (y : String × Task), y ∈ qs.runningTasks → y ∈ (processQueueGo fuel qs).runningTasks := by
  intro fuel
  induction fuel with
  | zero => intro qs y h; exact h
  | succ fuel ih =>
      intro qs y h
      rw [processQueueGo_succ]
      split
      · rcases hp : qs.pendingTasks with _ | ⟨task, rest⟩
        · exact h
        · show y ∈ (processQueueGo fuel (processQueueStep qs task rest)).runningTasks
          apply ih
          by_cases hc : task.status = .CANCELLED
          · rwa [processQueueStep_running_cancelled _ _ _ hc]
          · rw [processQueueStep_running_notCancelled _ _ _ hc]
            exact List.mem_append_left _ h
      · exact h

theorem processQueueGo_conserve : ∀ (fuel : Nat) (qs : QueueState) (t : Task),
    t ∈ qs.pendingTasks → t.status ≠ .CANCELLED →
    t ∈ (processQueueGo fuel qs).pendingTasks
      ∨ t ∈ (processQueueGo fuel qs).runningTasks.map Prod.snd := by
  intro fuel
  induction fuel with
  | zero => intro qs t h _; exact Or.inl h
  | succ fuel ih =>
      intro qs t h hnc
      rw [processQueueGo_succ]
      split
      · rcases hp : qs.pendingTasks with _ | ⟨task, rest⟩
        · rw [hp] at h; cases h
        · rw [hp] at h
          show t ∈ (processQueueGo fuel (processQueueStep qs task rest)).pendingTasks
            ∨ t ∈ (processQueueGo fuel (processQueueStep qs task rest)).runningTasks.map Prod.snd
          rcases List.mem_cons.1 h with heq | hmem
          · subst heq
            refine Or.inr ?_
            have hrun : (t.uuid, t) ∈ (processQueueStep qs t rest).runningTasks := by
              rw [processQueueStep_running_notCancelled _ _ _ hnc]
              exact List.mem_append_right _ (List.mem_singleton.2 rfl)
            have hrun2 := processQueueGo_running_mono fuel _ _ hrun
            exact List.mem_map.2 ⟨(t.uuid, t), hrun2, rfl⟩
          · apply ih
            · rw [processQueueStep_pendingTasks]; exact hmem
            · exact hnc
      · exact Or.inl h

end TaskQueue

theorem Task.cancel_stopped (t : Task) : (Task.cancel t).stopped = true := by
  rw [Task.cancel]
  split <;> rfl

theorem TaskChain.handleGo_finalized : ∀ (fuel : Nat) (c : TaskChain)
    (out : TaskChain.HandleOut), TaskChain.handleGo fuel c = some out →
    out.finalized = true →
    out.chain.base.result = some (out.chain.chainContext.serialize).data := by
  intro fuel
  induction fuel with
  | zero => intro c out h _; exact absurd h (by simp [TaskChain.handleGo])
  | succ fuel ih =>
      intro c out h hfin
      rw [TaskChain.handleGo] at h
      split at h
      · split at h
        · injection h with h2; subst h2; simp at hfin
        · simp only [] at h
          split at h
          · injection h with h2; subst h2; simp at hfin
          · split at h
            · injection h with h2; subst h2; simp at hfin
            · split at h
              · split at h
                · injection h with h2; subst h2; simp at hfin
                · exact ih _ _ h hfin
                · split at h
                  · exact ih _ _ h hfin
                  · injection h with h2; subst h2; simp at hfin
                · exact ih _ _ h hfin
              · exact ih _ _ h hfin
      · injection h with h2; subst h2; rfl

/-! ## Claim theorems -/

/-- C1: the uniqueness invariant is violated through the retry path.  On the
concrete trace: JOB task `a` (key `K`) is admitted and dispatched
(`qsStep1`), fails and gets a retry scheduled (`qsStep2` — at which point
`_handleTaskCompletion` has decremented and cleaned its unique-key entry);
while `a` awaits the retry, JOB task `b` with the same key `K` is submitted
and `addTask` admits it (it reaches the tracker and the running slot) instead
of rejecting it; when the retry timer fires, `_retryTask` re-appends `a` to
pending without re-indexing, leaving two JOB tasks with key `K` in
`pending ∪ running` — the count the claim bounds by 1. -/
theorem c1_unique_index_retry_violation :
    qsStep2.retryTimers = [(5, jobTaskARetrying)]
    ∧ qsStep3.tracker = ["a", "b"]
    ∧ qsStep3.runningTasks = [("b", jobTaskB)]
    ∧ jobTaskARetrying.stopped = false
    ∧ qsStep4.pendingTasks = [TaskQueue.resetForRetry jobTaskARetrying]
    ∧ jobKeyCount "K" qsStep4 = 2 := by
  decide

/-- C3: the Queue retries permanent failures.  `permTask1` is a task whose
body raised `PermanentTaskFailure` (run leaves it Failed, not stopped, with
the exception recorded and `currentRetryAttempts = 0 < 1 = maxRetries`);
`_handleTaskCompletion` nevertheless schedules a retry timer for it — it
never consults `errorException` — and keeps it in the tracker. -/
theorem c3_permanent_failure_retried :
    permTask1.status = .FAILED
    ∧ permTask1.errorException = some .permanentTaskFailure
    ∧ permTask1.stopped = false
    ∧ permTask1.currentRetryAttempts < permTask1.maxRetries
    ∧ qsPerm2.retryTimers
        = [(5, { permTask1 with currentRetryAttempts := 1, status := .RETRYING })]
    ∧ qsPerm2.tracker = ["p"] := by
  decide

/-- C4 counterexample: a task that is already stopped (cancel() was called)
and whose `handle()` raises a generic uncaught exception finishes Failed,
not Cancelled — `run()`'s `except Exception` branch sets FAILED without
consulting `isStopped()`. -/
theorem c4_counterexample :
    stoppedTask.stopped = true
    ∧ (Task.run stoppedTask ⟨[], none, .raiseExc (.generic "ValueError") "boom"⟩).1.status
        = .FAILED := by
  decide

/-- C4 amended: for a stopped task, Cancelled wins only when `handle()`
returns normally or raises the cancellation sentinel
(`TaskCancellationException`); any other uncaught exception yields Failed
even though the task is already stopped. -/
theorem c4_amended (t : Task) (calls : List Int) (fc : Option String)
    (h : t.stopped = true) :
    (Task.run t ⟨calls, fc, .ret⟩).1.status = .CANCELLED
    ∧ (Task.run t ⟨calls, fc, .raiseCancellation⟩).1.status = .CANCELLED
    ∧ ∀ (k : ExcKind) (msg : String),
        (Task.run t ⟨calls, fc, .raiseExc k msg⟩).1.status = .FAILED := by
  refine ⟨?_, ?_, fun k msg => ?_⟩ <;> cases fc <;>
    simp [Task.run, applyProgressCalls_stopped, h]

/-- C4 witness: the amended statement at the concrete stopped task. -/
theorem c4_amended_witness :
    (Task.run stoppedTask ⟨[], none, .ret⟩).1.status = .CANCELLED
    ∧ (Task.run stoppedTask ⟨[], none, .raiseCancellation⟩).1.status = .CANCELLED
    ∧ (Task.run stoppedTask ⟨[], none, .raiseExc (.generic "RuntimeError") "x"⟩).1.status
        = .FAILED :=
  ⟨(c4_amended stoppedTask [] none (by decide)).1,
   (c4_amended stoppedTask [] none (by decide)).2.1,
   (c4_amended stoppedTask [] none (by decide)).2.2 (.generic "RuntimeError") "x"⟩

/-- C5 counterexample: a task whose body never calls `setProgress` reaches
Completed with progress 0, not 100, and a body may emit a decreasing
progress sequence (50 then 10) — `setProgress` only clamps, and `run()`
never forces progress to 100 on completion. -/
theorem c5_counterexample :
    (Task.run freshTask ⟨[], none, .ret⟩).1.status = .COMPLETED
    ∧ (Task.run freshTask ⟨[], none, .ret⟩).1.progress = 0
    ∧ progressValues (Task.run freshTask ⟨[50, 10], none, .ret⟩).2.1 = [50, 10]
    ∧ nonDecreasingB
        (progressValues (Task.run freshTask ⟨[50, 10], none, .ret⟩).2.1) = false := by
  decide

/-- C5 amended: within one run of a body that returns normally on a
non-stopped task, the emitted progress values are exactly the body's
`setProgress` arguments clamped into [0,100] (so each value lies in the
range, but the sequence follows the body and need not be non-decreasing),
and at Completed the progress equals the last clamped value — or the task's
prior progress (0 for a fresh task) when the body never calls
`setProgress`. -/
theorem c5_amended (t : Task) (calls : List Int) (hstop : t.stopped = false) :
    progressValues (Task.run t ⟨calls, none, .ret⟩).2.1 = calls.map clampProgress
    ∧ (∀ v ∈ progressValues (Task.run t ⟨calls, none, .ret⟩).2.1, 0 ≤ v ∧ v ≤ 100)
    ∧ (Task.run t ⟨calls, none, .ret⟩).1.status = .COMPLETED
    ∧ (Task.run t ⟨calls, none, .ret⟩).1.progress
        = (calls.map clampProgress).getLastD t.progress := by
  have htrace := run_ret_progressValues t calls
  refine ⟨htrace, ?_, ?_, ?_⟩
  · intro v hv
    rw [htrace] at hv
    rcases List.mem_map.1 hv with ⟨x, _, rfl⟩
    exact ⟨le_max_left 0 _, max_le (by norm_num) (le_trans (min_le_left _ _) le_rfl)⟩
  · simp [Task.run, applyProgressCalls_stopped, applyProgressCalls_status, hstop]
  · simp [Task.run, applyProgressCalls_stopped, applyProgressCalls_status,
      applyProgressCalls_progress, hstop]

/-- C5 witness: the amended statement at a fresh task with calls 30 then
60. -/
theorem c5_amended_witness :
    progressValues (Task.run freshTask ⟨[30, 60], none, .ret⟩).2.1 = [30, 60]
    ∧ (Task.run freshTask ⟨[30, 60], none, .ret⟩).1.status = .COMPLETED
    ∧ (Task.run freshTask ⟨[30, 60], none, .ret⟩).1.progress = 60 :=
  ⟨(c5_amended freshTask [30, 60] (by decide)).1,
   (c5_amended freshTask [30, 60] (by decide)).2.2.1,
   (c5_amended freshTask [30, 60] (by decide)).2.2.2⟩

/-- C6: `RETRY_TASK` in the chain retry map is not equivalent to
`STOP_CHAIN`.  On a one-child chain whose child ultimately fails, the
`STOP_CHAIN` mapping makes `handle()` call `self.fail(...)` (chain Failed,
`TaskFailedException` escapes), but under `RETRY_TASK` the `if/elif` ladder
in `TaskChain.handle` has no matching branch: control falls through,
`currentTaskIndex` advances past the failed child, and the chain finalizes
successfully with its context as result. -/
theorem c6_retrytask_diverges_from_stopchain :
    TaskChain.handle chainWithRetryTask 10 = some c6RetryOut
    ∧ TaskChain.handle chainWithStopChain 10 = some c6StopOut
    ∧ c6RetryOut.finalized = true
    ∧ c6RetryOut.chain.base.status = .RUNNING
    ∧ c6RetryOut.chain.base.result = some []
    ∧ c6RetryOut.raised = none
    ∧ c6StopOut.chain.base.status = .FAILED
    ∧ c6StopOut.raised.isSome = true := by
  decide

/-- C7 counterexample: `ChainContext.set` stores the mutable value by
reference, not by deep copy.  After `set "k" (mutRef 0)` the context holds
the very reference 0; mutating the referenced list externally (heap0 →
heap1) changes what `get "k"` observes.  The deep-copy semantics the spec
describes (`setDeepCopySpec`) would instead store a fresh copy at address 1,
which the external mutation does not touch. -/
theorem c7_counterexample :
    ChainContext.set ctxEmpty "k" (.mutRef 0) = .ok ctxStored
    ∧ observe heap0 (ctxStored.get "k") = .obj (some (.hlist [1]))
    ∧ observe heap1 (ctxStored.get "k") = .obj (some (.hlist [1, 2]))
    ∧ observe heap1 (ctxStored.get "k") ≠ observe heap0 (ctxStored.get "k")
    ∧ ChainContext.setDeepCopySpec heap0 1 ctxEmpty "k" (.mutRef 0)
        = .ok ({ chainUuid := "chain1", data := [("k", .mutRef 1)] },
               [(0, .hlist [1]), (1, .hlist [1])])
    ∧ observe (alistSet 0 (HVal.hlist [1, 2]) [(0, HVal.hlist [1]), (1, HVal.hlist [1])])
        (PyVal.mutRef 1) = .obj (some (.hlist [1])) := by
  refine ⟨rfl, rfl, rfl, by decide, rfl, rfl⟩

/-- C7 amended: `set` validates JSON serializability and then stores the
given value itself — for a non-primitive, the reference.  `get` returns that
same reference, so any heap observation through `get` coincides with the
observation of the original value: external mutation of a stored mutable
value is visible to later `get`/`serialize`.  Non-serializable values are
rejected with a TypeError. -/
theorem c7_amended (ctx : ChainContext) (key : String) (v : PyVal)
    (h : v.jsonSerializable = true) :
    ChainContext.set ctx key v = .ok { ctx with data := alistSet key v ctx.data }
    ∧ ChainContext.get { ctx with data := alistSet key v ctx.data } key = v
    ∧ (∀ heap : Heap,
        observe heap (ChainContext.get { ctx with data := alistSet key v ctx.data } key)
          = observe heap v)
    ∧ ∀ w : PyVal, w.jsonSerializable = false →
        ChainContext.set ctx key w
          = .error ("Value for key " ++ key ++ " is not JSON serializable") := by
  refine ⟨?_, ?_, ?_, ?_⟩
  · simp [ChainContext.set, h]
  · simp [ChainContext.get, alistGet_alistSet_self]
  · intro heap
    simp [ChainContext.get, alistGet_alistSet_self]
  · intro w hw
    simp [ChainContext.set, hw]

/-- C7 witness: the amended statement at a primitive value. -/
theorem c7_amended_witness :
    ChainContext.set ctxEmpty "k" (PyVal.pint 7)
        = .ok { ctxEmpty with data := alistSet "k" (PyVal.pint 7) ctxEmpty.data }
    ∧ ChainContext.get
        { ctxEmpty with data := alistSet "k" (PyVal.pint 7) ctxEmpty.data } "k"
        = PyVal.pint 7
    ∧ observe heap0
        (ChainContext.get
          { ctxEmpty with data := alistSet "k" (PyVal.pint 7) ctxEmpty.data } "k")
        = observe heap0 (PyVal.pint 7) :=
  ⟨(c7_amended ctxEmpty "k" (.pint 7) (by decide)).1,
   (c7_amended ctxEmpty "k" (.pint 7) (by decide)).2.1,
   (c7_amended ctxEmpty "k" (.pint 7) (by decide)).2.2.1 heap0⟩

/-- C8 counterexample: `pauseTask` on a task that is not Running (here:
Pending) — and `resumeTask` on a task that is not Paused — return normally
with the task map unchanged; no `InvalidTaskState` error reaches the caller
(the source logs a warning and returns). -/
theorem c8_counterexample :
    TaskManagerService.pauseTask pendingMap "x" = .ok pendingMap
    ∧ TaskManagerService.resumeTask pendingMap "x" = .ok pendingMap
    ∧ pendingMap.map (fun e => e.2.status) = [.PENDING] :=
  ⟨rfl, rfl, rfl⟩

/-- C8 amended: pause on a non-Running task and resume on a non-Paused task
are silent no-ops — the call returns `.ok` with the task map (and thus every
task's state) unchanged, surfacing no error; only an unknown uuid surfaces
an error, namely `TaskNotFound`. -/
theorem c8_amended (tasks : List (String × Task)) (uuid : String) (t : Task)
    (hget : alistGet uuid tasks = some t) :
    (t.status ≠ .RUNNING → TaskManagerService.pauseTask tasks uuid = .ok tasks)
    ∧ (t.status ≠ .PAUSED → TaskManagerService.resumeTask tasks uuid = .ok tasks)
    ∧ ∀ u : String, alistGet u tasks = none →
        TaskManagerService.pauseTask tasks u = .error (.notFound u)
        ∧ TaskManagerService.resumeTask tasks u = .error (.notFound u) := by
  refine ⟨?_, ?_, ?_⟩
  · intro hs
    simp [TaskManagerService.pauseTask, hget, hs]
  · intro hs
    simp [TaskManagerService.resumeTask, hget, hs]
  · intro u hu
    exact ⟨by simp [TaskManagerService.pauseTask, hu],
           by simp [TaskManagerService.resumeTask, hu]⟩

/-- C8 witness: the amended statement at the concrete Pending task. -/
theorem c8_amended_witness :
    TaskManagerService.pauseTask pendingMap "x" = .ok pendingMap
    ∧ TaskManagerService.resumeTask pendingMap "x" = .ok pendingMap
    ∧ TaskManagerService.pauseTask pendingMap "nope" = .error (.notFound "nope") :=
  ⟨(c8_amended pendingMap "x" { uuid := "x", kind := "T" } rfl).1 (by decide),
   (c8_amended pendingMap "x" { uuid := "x", kind := "T" } rfl).2.1 (by decide),
   ((c8_amended pendingMap "x" { uuid := "x", kind := "T" } rfl).2.2 "nope" rfl).1⟩

/-- C9 counterexample: a chain constructed with an empty child list returns
early from `handle()` with progress set to 100 but its result left `None` —
not the data of its serialized ChainContext (which is the empty dict). -/
theorem c9_counterexample :
    TaskChain.handle emptyChain 5
      = some ⟨{ emptyChain with base := { emptyChain.base with progress := 100 } },
              none, false⟩
    ∧ ({ emptyChain with base := { emptyChain.base with progress := 100 } } :
        TaskChain).base.result = none
    ∧ (emptyChain.chainContext.serialize).data = []
    ∧ (none : Option (List (String × PyVal)))
        ≠ some (emptyChain.chainContext.serialize).data := by
  refine ⟨rfl, rfl, rfl, by simp⟩

/-- C9 amended: a chain whose loop exits through the finalization path
(`currentTaskIndex ≥ len(children)`, marker `finalized`) has its result set
to the data of its serialized ChainContext; a chain with an empty child
list instead returns early with progress 100 and its result untouched. -/
theorem c9_amended (fuel : Nat) (c : TaskChain) (out : TaskChain.HandleOut)
    (h : TaskChain.handleGo fuel c = some out) (hfin : out.finalized = true) :
    out.chain.base.result = some (out.chain.chainContext.serialize).data
    ∧ ∀ c0 : TaskChain, c0.tasks = [] → ∀ f : Nat,
        TaskChain.handle c0 f
          = some ⟨TaskChain.updateDefaultProgress c0, none, false⟩
        ∧ (TaskChain.updateDefaultProgress c0).base.result = c0.base.result
        ∧ (TaskChain.updateDefaultProgress c0).base.progress = 100 := by
  refine ⟨TaskChain.handleGo_finalized fuel c out h hfin, ?_⟩
  intro c0 h0 f
  refine ⟨?_, ?_, ?_⟩
  · simp [TaskChain.handle, h0]
  · simp [TaskChain.updateDefaultProgress, h0, Task.setProgress]
  · simp [TaskChain.updateDefaultProgress, h0, Task.setProgress, clampProgress]

/-- C9 witness: the amended statement at the one-child succeeding chain. -/
theorem c9_amended_witness :
    TaskChain.handleGo 3 chainOneOk = some chainOneOkOut
    ∧ chainOneOkOut.finalized = true
    ∧ chainOneOkOut.chain.base.result
        = some (chainOneOkOut.chain.chainContext.serialize).data :=
  ⟨by decide, by decide,
   (c9_amended 3 chainOneOk chainOneOkOut (by decide) (by decide)).1⟩

/-- C10: cancelling a TaskChain cascades to all children.
`TaskChain.cancel` sets the chain's own stop flag (via `super().cancel()`)
and invokes `cancel()` on every child task at every position — the
cancellation cleanup iterates the whole child list, so after it every child
carries the stop flag. -/
theorem c10_chain_cancel_cascades (c : TaskChain) :
    (TaskChain.cancel c).base.stopped = true
    ∧ ∀ ch ∈ (TaskChain.cancel c).tasks, ch.task.stopped = true := by
  constructor
  · rw [TaskChain.cancel]
    simp only [TaskChain.performCancellationCleanup]
    split <;> rfl
  · intro ch hmem
    rw [TaskChain.cancel] at hmem
    simp only [TaskChain.performCancellationCleanup, List.map_map, List.mem_map] at hmem
    obtain ⟨a, _, rfl⟩ := hmem
    exact Task.cancel_stopped _

/-- C10 witness: both children of the concrete two-child chain end up
stopped, in particular the child at position 1 (not currently executing). -/
theorem c10_witness :
    (TaskChain.cancel chainTwoKids).base.stopped = true
    ∧ cancelledKid1.task.stopped = true :=
  ⟨(c10_chain_cancel_cascades chainTwoKids).1,
   (c10_chain_cancel_cascades chainTwoKids).2 cancelledKid1
     (List.Mem.tail _ (List.Mem.head _))⟩

/-- C2: the Queue retry protocol.  When a task finishes Failed, not stopped,
with attempts remaining (and it was among the running tasks), the completion
handler schedules exactly one retry timer for `retryDelaySeconds` seconds
carrying the task with `currentRetryAttempts` incremented and status
Retrying, and the task stays registered in the Tracker.  When the timer
fires (`_retryTask`): a task stopped in the meantime is dropped — the state
is unchanged except that the task is removed from the Tracker; otherwise the
task reset to Pending with error and stop flag cleared is re-appended to
pending (ending up in pending or, after dispatch, running), and the Tracker
gains no registration (its membership only shrinks). -/
theorem c2_queue_retry_protocol (qs : QueueState) (uuid : String) (t : Task)
    (hmem : (alistGet uuid qs.runningTasks).isSome = true)
    (hst : t.status = .FAILED) (hstop : t.stopped = false)
    (hatt : t.currentRetryAttempts < t.maxRetries)
    (hpend : ∀ p ∈ qs.pendingTasks, p.uuid ≠ uuid)
    (htrk : uuid ∈ qs.tracker) :
    (TaskQueue.handleTaskCompletion qs uuid t).retryTimers
        = qs.retryTimers ++
          [(t.retryDelaySeconds,
            { t with currentRetryAttempts := t.currentRetryAttempts + 1,
                     status := .RETRYING })]
    ∧ uuid ∈ (TaskQueue.handleTaskCompletion qs uuid t).tracker
    ∧ (∀ (qs2 : QueueState) (u : Task), u.stopped = true →
        TaskQueue.retryTask qs2 u
          = { qs2 with tracker := trackerRemoveTask qs2.tracker u.uuid })
    ∧ (∀ (qs2 : QueueState) (u : Task), u.stopped = false → u.status ≠ .CANCELLED →
        (TaskQueue.resetForRetry u ∈ (TaskQueue.retryTask qs2 u).pendingTasks
          ∨ TaskQueue.resetForRetry u
              ∈ (TaskQueue.retryTask qs2 u).runningTasks.map Prod.snd)
        ∧ (TaskQueue.resetForRetry u).status = .PENDING
        ∧ (TaskQueue.resetForRetry u).error = none
        ∧ (TaskQueue.resetForRetry u).stopped = false
        ∧ ∀ x ∈ (TaskQueue.retryTask qs2 u).tracker, x ∈ qs2.tracker) := by
  have hnone : ((alistGet uuid qs.runningTasks).isNone = true) = False := by
    rcases halist : alistGet uuid qs.runningTasks with _ | v
    · rw [halist] at hmem; simp at hmem
    · simp
  refine ⟨?_, ?_, ?_, ?_⟩
  · simp only [TaskQueue.handleTaskCompletion, hnone, if_false, TaskQueue.processQueue,
      TaskQueue.processQueueGo_retryTimers]
    by_cases hu : t.uniqueType = .NONE <;>
      simp [hu, hst, hstop, hatt, TaskQueue.cleanupUniqueKey]
  · simp only [TaskQueue.handleTaskCompletion, hnone, if_false, TaskQueue.processQueue]
    apply TaskQueue.processQueueGo_tracker_mem
    · by_cases hu : t.uniqueType = .NONE <;> simp [hu, hst, hstop, hatt, htrk]
    · by_cases hu : t.uniqueType = .NONE <;>
        simp [hu, hst, hstop, hatt] <;> intro p hp <;> exact hpend p hp
  · intro qs2 u hu
    simp [TaskQueue.retryTask, hu]
  · intro qs2 u hu1 hu2
    refine ⟨?_, rfl, rfl, rfl, ?_⟩
    · rw [TaskQueue.retryTask, if_neg (by simp [hu1, hu2])]
      simp only [TaskQueue.processQueue]
      apply TaskQueue.processQueueGo_conserve
      · simp
      · simp [TaskQueue.resetForRetry]
    · intro x hx
      rw [TaskQueue.retryTask, if_neg (by simp [hu1, hu2])] at hx
      simp only [TaskQueue.processQueue] at hx
      have hsub := TaskQueue.processQueueGo_tracker_sub _ _ _ hx
      exact hsub

/-- C2 witness: the protocol at the concrete failed task `w`. -/
theorem c2_witness :
    (TaskQueue.handleTaskCompletion qsW "w" wTask).retryTimers
        = [(5, { wTask with currentRetryAttempts := 1, status := .RETRYING })]
    ∧ "w" ∈ (TaskQueue.handleTaskCompletion qsW "w" wTask).tracker :=
  ⟨(c2_queue_retry_protocol qsW "w" wTask (by decide) (by decide) (by decide) (by decide)
      (by simp [qsW]) (by simp [qsW, wTask])).1,
   (c2_queue_retry_protocol qsW "w" wTask (by decide) (by decide) (by decide) (by decide)
      (by simp [qsW]) (by simp [qsW, wTask])).2.1⟩

end TaskSystem
